import Mathlib

/-
Shallow embedding of src/pypose/liegroup/lietorch/groups.py.

The module defines a GroupType hierarchy (SO3Type, so3Type, SE3Type,
se3Type, instantiated once each as SO3_type, so3_type, SE3_type,
se3_type), and a LieGroup tensor container tagged with a GroupType.
The numeric kernels (exp, log, inv, mul, ...) and the broadcasting
resolver are imported from sibling modules that are not part of the
source under verification; where their behaviour is needed it is
modelled from the spec and marked as such.

Tensors are modelled as a flat list of rationals together with a shape;
Python exceptions are modelled with an Except monad over PyError.
-/

namespace PyPose

/-- Python exception kinds raised by the code under verification. -/
inductive PyError
  | attributeError (msg : String)
  | notImplementedError (msg : String)
  | nameError (msg : String)
  | assertionError (msg : String)
  | indexError (msg : String)
deriving DecidableEq, Repr

/-- The four concrete GroupType subclasses of groups.py, each of which is
instantiated exactly once at module level (SO3_type, so3_type, SE3_type,
se3_type). -/
inductive GType
  | SO3_type
  | so3_type
  | SE3_type
  | se3_type
deriving DecidableEq, Repr, Fintype

/-- Group ID passed to GroupType.init by each subclass init. -/
def GType.group : GType → Nat
  | .SO3_type => 1
  | .so3_type => 1
  | .SE3_type => 3
  | .se3_type => 3

/-- Data dimension passed to GroupType.init by each subclass init. -/
def GType.dimension : GType → Nat
  | .SO3_type => 4
  | .so3_type => 3
  | .SE3_type => 7
  | .se3_type => 6

/-- Embedding dimension passed to GroupType.init by each subclass init. -/
def GType.embedding : GType → Nat
  | .SO3_type => 4
  | .so3_type => 4
  | .SE3_type => 7
  | .se3_type => 7

/-- Manifold dimension passed to GroupType.init by each subclass init. -/
def GType.manifold : GType → Nat
  | .SO3_type => 3
  | .so3_type => 3
  | .SE3_type => 6
  | .se3_type => 6

/-- Property on_manifold of GroupType: dimension == manifold. -/
def GType.on_manifold (t : GType) : Bool :=
  t.dimension == t.manifold

/-- A torch tensor: a shape and the flattened data, plus the autograd
requires_grad flag. -/
structure Tensor where
  shape : List Nat
  data : List ℚ
  requires_grad : Bool
deriving DecidableEq, Repr

/-- A LieGroup element after successful construction: the backing tensor
plus the gtype tag set by LieGroup.init. -/
structure LieGroup where
  shape : List Nat
  data : List ℚ
  requires_grad : Bool
  gtype : GType
deriving DecidableEq, Repr

/-- Constructing LieGroup(data, gtype=..., **kwargs).  LieGroup.new
subclasses the data tensor, which keeps the requires_grad flag of data
(the requires_grad entry of kwargs, rgKwarg here, is absorbed by
**kwargs in LieGroup.init and never used).  LieGroup.init then runs
assert data.shape[-1] == gtype.dimension: indexing shape[-1] of a
0-dimensional tensor raises IndexError; gtype.dimension with the default
gtype=None raises AttributeError; a failed assert raises AssertionError. -/
def LieGroup.make (data : Tensor) (gtype : Option GType) (rgKwarg : Option Bool) :
    Except PyError LieGroup :=
  let _ := rgKwarg
  match data.shape.getLast? with
  | none => .error (.indexError "tuple index out of range")
  | some d =>
    match gtype with
    | none => .error (.attributeError "NoneType object has no attribute dimension")
    | some g =>
      if d = g.dimension then
        .ok ⟨data.shape, data.data, data.requires_grad, g⟩
      else
        .error (.assertionError "Dimension Invalid.")

/-- Names bound at module level in groups.py: the imports of lines 1-5,
the five classes and the four GroupType instances.  Name lookups inside a
method body that miss the local scope fall through to this table; a miss
here (and in builtins) raises NameError. -/
def moduleGlobals : List String :=
  ["torch", "nn", "broadcast_inputs",
   "exp", "log", "inv", "mul", "adj",
   "adjT", "jinv", "act3", "act4", "toMatrix", "toVec", "fromVec",
   "GroupType", "SO3Type", "so3Type", "SE3Type", "se3Type",
   "SO3_type", "so3_type", "SE3_type", "se3_type",
   "LieGroup", "Parameter"]

/-- Attributes defined on the LieGroup class (methods and properties of
lines 137-211 plus the gtype slot set in init); lookups of any other
name fall through to torch.Tensor, which defines none of the helper
names the method bodies reference, and raise AttributeError. -/
def lieGroupAttrs : List String :=
  ["gtype", "gshape", "tensor",
   "Exp", "Log", "Inv", "Mul", "Retr", "Adj", "AdjT", "Jinv", "Act",
   "matrix", "translation"]

/-- Evaluating a bare name inside a method body of groups.py. -/
def lookupGlobal (n : String) : Except PyError Unit :=
  if moduleGlobals.contains n then .ok ()
  else .error (.nameError n)

/-- Evaluating an attribute access on a LieGroup instance or on the
LieGroup class. -/
def getattrLieGroup (n : String) : Except PyError Unit :=
  if lieGroupAttrs.contains n then .ok ()
  else .error (.attributeError n)

/-- Fuel-driven worker for chunkRows: one unit of fuel per extracted row,
starting from the length of the list, which is an upper bound on the
number of rows whenever the row length d is positive. -/
def chunkGo (d : Nat) : Nat → List ℚ → List (List ℚ)
  | _, [] => []
  | 0, _ :: _ => []
  | fuel + 1, a :: t => (a :: t).take d :: chunkGo d fuel ((a :: t).drop d)

/-- Split a flat list into consecutive rows of length d (the batch rows of
a tensor flattened to shape (N, d)). -/
def chunkRows (d : Nat) (l : List ℚ) : List (List ℚ) :=
  chunkGo d l.length l

/-- Apply a per-element kernel row by row to a tensor flattened to rows of
length d, concatenating the output rows. -/
def mapRows (f : List ℚ → List ℚ) (d : Nat) (l : List ℚ) : List ℚ :=
  ((chunkRows d l).map f).flatten

/-- Data of a length-v vector expanded to n batch copies, as produced by
tensor.expand over a new leading batch shape. -/
def repeatData (n : Nat) (v : List ℚ) : List ℚ :=
  (List.replicate n v).flatten

/-- Modelled from the spec: the external numeric kernels of group_ops
(section 6 of the spec), pure per-element functions keyed by the integer
group identifier, acting on one coordinate row at a time.  Only exp, log
and inv are reachable from the code under verification (the mul, adj,
adjT, jinv, act3, act4 aliases the container methods reference do not
resolve); theorems constrain these functions only through explicit
hypotheses taken from the spec. -/
structure Kernels where
  exp : Nat → List ℚ → List ℚ
  log : Nat → List ℚ → List ℚ
  inv : Nat → List ℚ → List ℚ

/-- Modelled from the spec: the broadcasting resolver of the missing
broadcasting module, unary case broadcast_inputs(x, None): the resolved
batch shape is the batch shape of x (shape without the trailing
coordinate axis) and the flattened operand carries the same data. -/
def broadcastUnaryOutShape (x : LieGroup) : List Nat :=
  x.shape.dropLast

/-- Result of kernelFn.apply(self.group, flatInput).view(out_shape + (-1,))
followed by LieGroup(..., gtype=outTag, requires_grad=x.requires_grad):
the kernel maps rows of length inDim to rows of length outDim (spec,
section 6), and the output tensor of the differentiable kernel requires
grad exactly when some tensor input does (modelled from the spec:
kernels support reverse-mode differentiation), here the single input x. -/
def applyUnaryKernel (k : Nat → List ℚ → List ℚ) (groupId inDim outDim : Nat)
    (outTag : GType) (x : LieGroup) : Except PyError LieGroup :=
  let outData := mapRows (k groupId) inDim x.data
  LieGroup.make ⟨broadcastUnaryOutShape x ++ [outDim], outData, x.requires_grad⟩
    (some outTag) (some x.requires_grad)

/-- Method Log of SO3Type (lines 57-61): broadcast, apply the log kernel
keyed by self.group = 1, reshape, tag with so3_type. -/
def SO3Type.Log (K : Kernels) (x : LieGroup) : Except PyError LieGroup :=
  applyUnaryKernel K.log GType.SO3_type.group 4 3 .so3_type x

/-- Method Log of SE3Type (lines 97-101): broadcast, apply the log kernel
keyed by self.group = 3, reshape, tag with se3_type. -/
def SE3Type.Log (K : Kernels) (x : LieGroup) : Except PyError LieGroup :=
  applyUnaryKernel K.log GType.SE3_type.group 7 6 .se3_type x

/-- Method Exp of so3Type (lines 78-82): broadcast, apply the exp kernel
keyed by self.group = 1, reshape, tag with SO3_type. -/
def so3Type.Exp (K : Kernels) (x : LieGroup) : Except PyError LieGroup :=
  applyUnaryKernel K.exp GType.so3_type.group 3 4 .SO3_type x

/-- Method Exp of se3Type (lines 118-122): broadcast, apply the exp kernel
keyed by self.group = 3, reshape, tag with SE3_type. -/
def se3Type.Exp (K : Kernels) (x : LieGroup) : Except PyError LieGroup :=
  applyUnaryKernel K.exp GType.se3_type.group 6 7 .SE3_type x

/-- Dynamic dispatch of Log on a GroupType receiver: SO3Type and SE3Type
override Log; so3Type and se3Type inherit GroupType.Log (lines 20-23),
which raises AttributeError when on_manifold and NotImplementedError
otherwise. -/
def GType.Log (K : Kernels) (t : GType) (x : LieGroup) : Except PyError LieGroup :=
  match t with
  | .SO3_type => SO3Type.Log K x
  | .SE3_type => SE3Type.Log K x
  | .so3_type | .se3_type =>
    if t.on_manifold then .error (.attributeError "Manifold Type has no Log attribute")
    else .error (.notImplementedError "Instance has no Log attribute.")

/-- Dynamic dispatch of Exp on a GroupType receiver: so3Type and se3Type
override Exp; SO3Type and SE3Type inherit GroupType.Exp (lines 25-28),
which raises AttributeError when not on_manifold and NotImplementedError
otherwise. -/
def GType.Exp (K : Kernels) (t : GType) (x : LieGroup) : Except PyError LieGroup :=
  match t with
  | .so3_type => so3Type.Exp K x
  | .se3_type => se3Type.Exp K x
  | .SO3_type | .SE3_type =>
    if !t.on_manifold then .error (.attributeError "Embedding Type has no Exp attribute")
    else .error (.notImplementedError "Instance has no Exp attribute.")

/-- Method Inv of GroupType (lines 30-36), inherited by all four
subclasses.  On a tangent type (on_manifold) it returns
LieGroup(-x, gtype=x.gtype, requires_grad=x.requires_grad) with no kernel
call; negation of a tensor keeps its requires_grad flag.  Otherwise it
broadcasts and applies the inv kernel keyed by self.group, preserving
x.gtype. -/
def GType.Inv (K : Kernels) (t : GType) (x : LieGroup) : Except PyError LieGroup :=
  if t.on_manifold then
    LieGroup.make ⟨x.shape, x.data.map (fun v => -v), x.requires_grad⟩
      (some x.gtype) (some x.requires_grad)
  else
    applyUnaryKernel K.inv t.group t.dimension t.embedding x.gtype x

/-- Classmethod identity of SO3Type (lines 63-67): the fresh tensor
[0,0,0,1] (requires_grad False) expanded to args + (-1,), wrapped with
gtype SO3_type. -/
def SO3Type.identity (args : List Nat) : Except PyError LieGroup :=
  LieGroup.make ⟨args ++ [4], repeatData args.prod [0, 0, 0, 1], false⟩
    (some .SO3_type) (some false)

/-- Classmethod identity of SE3Type (lines 103-107): the fresh tensor
[0,0,0,0,0,0,1] expanded to args + (-1,), wrapped with gtype SE3_type. -/
def SE3Type.identity (args : List Nat) : Except PyError LieGroup :=
  LieGroup.make ⟨args ++ [7], repeatData args.prod [0, 0, 0, 0, 0, 0, 1], false⟩
    (some .SE3_type) (some false)

/-- Classmethod identity of so3Type (lines 84-86):
SO3_type.Log(SO3_type.identity(args)). -/
def so3Type.identity (K : Kernels) (args : List Nat) : Except PyError LieGroup :=
  (SO3Type.identity args).bind (SO3Type.Log K)

/-- Classmethod identity of se3Type (lines 124-126):
SE3_type.Log(SE3_type.identity(args)). -/
def se3Type.identity (K : Kernels) (args : List Nat) : Except PyError LieGroup :=
  (SE3Type.identity args).bind (SE3Type.Log K)

/-- Dispatch of identity on a GroupType receiver. -/
def GType.identity (K : Kernels) (t : GType) (args : List Nat) : Except PyError LieGroup :=
  match t with
  | .SO3_type => SO3Type.identity args
  | .SE3_type => SE3Type.identity args
  | .so3_type => so3Type.identity K args
  | .se3_type => se3Type.identity K args

/-- Base method GroupType.randn (lines 49-50):
sigma * torch.randn(args + [self.manifold]).  The random draw is modelled
by an arbitrary sample list; scaling by sigma multiplies every entry.
The fresh draw does not require grad. -/
def GroupType.randnBase (t : GType) (sample : List ℚ) (sigma : ℚ) (args : List Nat) :
    Tensor :=
  ⟨args ++ [t.manifold], sample.map (fun v => sigma * v), false⟩

/-- Method randn of so3Type (lines 88-90): the detached base draw wrapped
as LieGroup(data, gtype=so3_type) then requires_grad_(requestedGrad). -/
def so3Type.randn (sample : List ℚ) (sigma : ℚ) (requestedGrad : Bool)
    (args : List Nat) : Except PyError LieGroup :=
  let data := GroupType.randnBase .so3_type sample sigma args
  (LieGroup.make ⟨data.shape, data.data, false⟩ (some .so3_type) none).map
    (fun g => { g with requires_grad := requestedGrad })

/-- Method randn of se3Type (lines 128-130): same as so3Type.randn with
the se3 tag. -/
def se3Type.randn (sample : List ℚ) (sigma : ℚ) (requestedGrad : Bool)
    (args : List Nat) : Except PyError LieGroup :=
  let data := GroupType.randnBase .se3_type sample sigma args
  (LieGroup.make ⟨data.shape, data.data, false⟩ (some .se3_type) none).map
    (fun g => { g with requires_grad := requestedGrad })

/-- Method randn of SO3Type (lines 69-71):
so3_type.Exp(so3_type.randn(args, sigma=sigma)).detach() wrapped as
LieGroup(data, gtype=SO3_type) then requires_grad_(requestedGrad). -/
def SO3Type.randn (K : Kernels) (sample : List ℚ) (sigma : ℚ) (requestedGrad : Bool)
    (args : List Nat) : Except PyError LieGroup :=
  (so3Type.randn sample sigma false args).bind fun tcomp =>
    (so3Type.Exp K tcomp).bind fun e =>
      (LieGroup.make ⟨e.shape, e.data, false⟩ (some .SO3_type) none).map
        (fun g => { g with requires_grad := requestedGrad })

/-- Method randn of SE3Type (lines 109-111): same as SO3Type.randn through
se3_type. -/
def SE3Type.randn (K : Kernels) (sample : List ℚ) (sigma : ℚ) (requestedGrad : Bool)
    (args : List Nat) : Except PyError LieGroup :=
  (se3Type.randn sample sigma false args).bind fun tcomp =>
    (se3Type.Exp K tcomp).bind fun e =>
      (LieGroup.make ⟨e.shape, e.data, false⟩ (some .SE3_type) none).map
        (fun g => { g with requires_grad := requestedGrad })

/-- Dispatch of randn on a GroupType receiver. -/
def GType.randn (K : Kernels) (t : GType) (sample : List ℚ) (sigma : ℚ)
    (requestedGrad : Bool) (args : List Nat) : Except PyError LieGroup :=
  match t with
  | .SO3_type => SO3Type.randn K sample sigma requestedGrad args
  | .so3_type => so3Type.randn sample sigma requestedGrad args
  | .SE3_type => SE3Type.randn K sample sigma requestedGrad args
  | .se3_type => se3Type.randn sample sigma requestedGrad args

/-- Container method Exp (lines 161-162): self.gtype.Exp(self). -/
def LieGroup.Exp (K : Kernels) (self : LieGroup) : Except PyError LieGroup :=
  GType.Exp K self.gtype self

/-- Container method Log (lines 164-165): self.gtype.Log(self). -/
def LieGroup.Log (K : Kernels) (self : LieGroup) : Except PyError LieGroup :=
  GType.Log K self.gtype self

/-- Container method Inv (lines 167-168): self.gtype.Inv(self). -/
def LieGroup.Inv (K : Kernels) (self : LieGroup) : Except PyError LieGroup :=
  GType.Inv K self.gtype self

/-- Container method Mul (lines 170-172), body
self.dunderclass(self.apply_op(Mul, self.data, other.data)).  Evaluation
resolves the callee self.apply_op before its arguments; neither LieGroup
nor torch.Tensor defines apply_op, so the lookup raises AttributeError;
were it defined, the bare name Mul would raise NameError next.  The tail
after both lookups is unreachable on this module. -/
def LieGroup.Mul (self other : LieGroup) : Except PyError LieGroup :=
  let _ := (self, other)
  (getattrLieGroup "apply_op").bind fun _ =>
    (lookupGlobal "Mul").bind fun _ =>
      .error (.notImplementedError "unreachable")

/-- Container method Retr (lines 174-177), body beginning
dX = self.dunderclass.apply_op(Exp, a).  The class attribute apply_op is
looked up first and is undefined; were it defined, the bare name Exp
would raise NameError next.  The tail is unreachable. -/
def LieGroup.Retr (self : LieGroup) (a : Tensor) : Except PyError LieGroup :=
  let _ := (self, a)
  (getattrLieGroup "apply_op").bind fun _ =>
    (lookupGlobal "Exp").bind fun _ =>
      .error (.notImplementedError "unreachable")

/-- Container method Adj (lines 179-181), body
self.apply_op(Adj, self.data, a): apply_op is undefined, then the bare
name Adj.  The tail is unreachable. -/
def LieGroup.Adj (self : LieGroup) (a : Tensor) : Except PyError LieGroup :=
  let _ := (self, a)
  (getattrLieGroup "apply_op").bind fun _ =>
    (lookupGlobal "Adj").bind fun _ =>
      .error (.notImplementedError "unreachable")

/-- Container method AdjT (lines 183-185), body
self.apply_op(AdjT, self.data, a). -/
def LieGroup.AdjT (self : LieGroup) (a : Tensor) : Except PyError LieGroup :=
  let _ := (self, a)
  (getattrLieGroup "apply_op").bind fun _ =>
    (lookupGlobal "AdjT").bind fun _ =>
      .error (.notImplementedError "unreachable")

/-- Container method Jinv (lines 187-188), body
self.apply_op(Jinv, self.data, a). -/
def LieGroup.Jinv (self : LieGroup) (a : Tensor) : Except PyError LieGroup :=
  let _ := (self, a)
  (getattrLieGroup "apply_op").bind fun _ =>
    (lookupGlobal "Jinv").bind fun _ =>
      .error (.notImplementedError "unreachable")

/-- Container method Act (lines 190-199).  First p.shape[-1] is read
(IndexError on a 0-dimensional point tensor); if it is 3 the branch
evaluates self.apply_op(Act3, self.data, p), if it is 4 the branch
evaluates self.apply_op(Act4, self.data, p) — both failing at the
apply_op lookup — and otherwise no branch matches and the method falls
through, returning None (.ok none here). -/
def LieGroup.Act (self : LieGroup) (p : Tensor) : Except PyError (Option LieGroup) :=
  let _ := self
  match p.shape.getLast? with
  | none => .error (.indexError "tuple index out of range")
  | some d =>
    if d = 3 then
      (getattrLieGroup "apply_op").bind fun _ =>
        (lookupGlobal "Act3").bind fun _ =>
          .error (.notImplementedError "unreachable")
    else if d = 4 then
      (getattrLieGroup "apply_op").bind fun _ =>
        (lookupGlobal "Act4").bind fun _ =>
          .error (.notImplementedError "unreachable")
    else
      .ok none

/-- Container method matrix (lines 201-205).  After building the identity
matrix I, the body constructs self.dunderclass(self.data[...,None,:]):
indexing a 0-dimensional tensor with [...,None,:] raises IndexError, and
otherwise the constructed LieGroup has the default gtype=None, so
LieGroup.init raises AttributeError at gtype.dimension.  Were the
construction to succeed, the attribute act is also undefined.  The tail
is unreachable. -/
def LieGroup.matrix (self : LieGroup) : Except PyError LieGroup :=
  match self.shape.getLast? with
  | none => .error (.indexError "too many indices for tensor of dimension 0")
  | some d =>
    (LieGroup.make ⟨self.shape.dropLast ++ [1, d], self.data, self.requires_grad⟩
        none none).bind fun _ =>
      (getattrLieGroup "act").bind fun _ =>
        .error (.notImplementedError "unreachable")

/-- Container method translation (lines 207-211).  After building the
point p = [0,0,0,1], the body evaluates
self.apply_op(Act4, self.data, p): apply_op is undefined, then the bare
name Act4.  The tail is unreachable. -/
def LieGroup.translation (self : LieGroup) : Except PyError LieGroup :=
  let _ := self
  (getattrLieGroup "apply_op").bind fun _ =>
    (lookupGlobal "Act4").bind fun _ =>
      .error (.notImplementedError "unreachable")

/-- Whether an evaluation ended in a raised exception. -/
def raises {α : Type} : Except PyError α → Bool
  | .error _ => true
  | .ok _ => false

/-- Trivial kernels, used to instantiate theorems that do not constrain
the kernels. -/
def Ktriv : Kernels :=
  { exp := fun _ v => v, log := fun _ v => v, inv := fun _ v => v }

/-- Kernels satisfying the identity equations the spec pins down: the exp
kernel of each group maps the zero tangent vector to the group identity
and the log kernel maps the group identity back to zero. -/
def Kid : Kernels :=
  { exp := fun g _ => if g = 1 then [0, 0, 0, 1] else [0, 0, 0, 0, 0, 0, 1]
  , log := fun g _ => if g = 1 then [0, 0, 0] else [0, 0, 0, 0, 0, 0]
  , inv := fun _ v => v }

lemma raises_bind {α β : Type} (r : Except PyError α) (f : α → Except PyError β)
    (h : raises r = true) : raises (r.bind f) = true := by
  cases r with
  | error e => rfl
  | ok v => simp [raises] at h

lemma make_gtype_none_raises (data : Tensor) (rk : Option Bool) :
    raises (LieGroup.make data none rk) = true := by
  unfold LieGroup.make
  cases data.shape.getLast? with
  | none => rfl
  | some d => rfl

lemma chunkGo_flatten_replicate (d : Nat) (v : List ℚ)
    (hd : 0 < d) (hv : v.length = d) :
    ∀ (n fuel : Nat), ((List.replicate n v).flatten).length ≤ fuel →
      chunkGo d fuel (List.replicate n v).flatten = List.replicate n v := by
  intro n
  induction n with
  | zero =>
    intro fuel _
    cases fuel <;> rfl
  | succ m ih =>
    intro fuel hfuel
    rw [List.replicate_succ, List.flatten_cons] at hfuel ⊢
    cases hv' : v with
    | nil =>
      rw [hv'] at hv
      simp only [List.length_nil] at hv
      omega
    | cons a t =>
      subst hv'
      rw [List.cons_append]
      cases fuel with
      | zero =>
        simp at hfuel
      | succ f =>
        rw [chunkGo, ← List.cons_append]
        rw [List.take_left' hv, List.drop_left' hv]
        have hlen : ((List.replicate m (a :: t)).flatten).length ≤ f := by
          rw [List.length_append] at hfuel
          omega
        rw [ih f hlen]

lemma chunkRows_flatten_replicate (d n : Nat) (v : List ℚ)
    (hd : 0 < d) (hv : v.length = d) :
    chunkRows d (List.replicate n v).flatten = List.replicate n v := by
  unfold chunkRows
  exact chunkGo_flatten_replicate d v hd hv n _ le_rfl

lemma mapRows_repeatData (f : List ℚ → List ℚ) (d n : Nat) (v : List ℚ)
    (hd : 0 < d) (hv : v.length = d) :
    mapRows f d (repeatData n v) = repeatData n (f v) := by
  unfold mapRows repeatData
  rw [chunkRows_flatten_replicate d n v hd hv, List.map_replicate]

lemma flatten_replicate_zero (n d : Nat) :
    (List.replicate n (List.replicate d (0 : ℚ))).flatten =
      List.replicate (n * d) (0 : ℚ) := by
  induction n with
  | zero => simp
  | succ m ih =>
    rw [List.replicate_succ, List.flatten_cons, ih, Nat.succ_mul, Nat.add_comm,
      List.replicate_add]

lemma map_zero_mul (l : List ℚ) :
    l.map (fun v => (0 : ℚ) * v) = List.replicate l.length 0 := by
  induction l with
  | nil => rfl
  | cons a t ih => simp [List.replicate_succ, ih]

lemma map_neg_neg (l : List ℚ) :
    (l.map (fun v => -v)).map (fun v => -v) = l := by
  induction l with
  | nil => rfl
  | cons a t ih => simp [ih]

lemma except_bind_ok {α β : Type} (a : α) (f : α → Except PyError β) :
    Except.bind (.ok a) f = f a := rfl

lemma SO3_identity_ok (args : List Nat) :
    SO3Type.identity args =
      .ok ⟨args ++ [4], repeatData args.prod [0, 0, 0, 1], false, .SO3_type⟩ := by
  unfold SO3Type.identity LieGroup.make
  simp [List.getLast?_concat, GType.dimension]

lemma SE3_identity_ok (args : List Nat) :
    SE3Type.identity args =
      .ok ⟨args ++ [7], repeatData args.prod [0, 0, 0, 0, 0, 0, 1], false, .SE3_type⟩ := by
  unfold SE3Type.identity LieGroup.make
  simp [List.getLast?_concat, GType.dimension]

lemma SO3Type_Log_eval (K : Kernels) (x : LieGroup) :
    SO3Type.Log K x =
      .ok ⟨x.shape.dropLast ++ [3], mapRows (K.log 1) 4 x.data,
        x.requires_grad, .so3_type⟩ := by
  unfold SO3Type.Log applyUnaryKernel LieGroup.make broadcastUnaryOutShape
  simp [List.getLast?_concat, GType.dimension, GType.group]

lemma SE3Type_Log_eval (K : Kernels) (x : LieGroup) :
    SE3Type.Log K x =
      .ok ⟨x.shape.dropLast ++ [6], mapRows (K.log 3) 7 x.data,
        x.requires_grad, .se3_type⟩ := by
  unfold SE3Type.Log applyUnaryKernel LieGroup.make broadcastUnaryOutShape
  simp [List.getLast?_concat, GType.dimension, GType.group]

lemma so3Type_Exp_eval (K : Kernels) (x : LieGroup) :
    so3Type.Exp K x =
      .ok ⟨x.shape.dropLast ++ [4], mapRows (K.exp 1) 3 x.data,
        x.requires_grad, .SO3_type⟩ := by
  unfold so3Type.Exp applyUnaryKernel LieGroup.make broadcastUnaryOutShape
  simp [List.getLast?_concat, GType.dimension, GType.group]

lemma se3Type_Exp_eval (K : Kernels) (x : LieGroup) :
    se3Type.Exp K x =
      .ok ⟨x.shape.dropLast ++ [7], mapRows (K.exp 3) 6 x.data,
        x.requires_grad, .SE3_type⟩ := by
  unfold se3Type.Exp applyUnaryKernel LieGroup.make broadcastUnaryOutShape
  simp [List.getLast?_concat, GType.dimension, GType.group]

lemma so3_identity_eval (K : Kernels) (args : List Nat) :
    so3Type.identity K args =
      .ok ⟨args ++ [3], mapRows (K.log 1) 4 (repeatData args.prod [0, 0, 0, 1]),
        false, .so3_type⟩ := by
  unfold so3Type.identity
  rw [SO3_identity_ok, except_bind_ok, SO3Type_Log_eval]
  simp [List.dropLast_concat]

lemma se3_identity_eval (K : Kernels) (args : List Nat) :
    se3Type.identity K args =
      .ok ⟨args ++ [6],
        mapRows (K.log 3) 7 (repeatData args.prod [0, 0, 0, 0, 0, 0, 1]),
        false, .se3_type⟩ := by
  unfold se3Type.identity
  rw [SE3_identity_ok, except_bind_ok, SE3Type_Log_eval]
  simp [List.dropLast_concat]

lemma so3_identity_zero (K : Kernels) (args : List Nat)
    (hlog : K.log 1 [0, 0, 0, 1] = [0, 0, 0]) :
    so3Type.identity K args =
      .ok ⟨args ++ [3], List.replicate (args.prod * 3) 0, false, .so3_type⟩ := by
  rw [so3_identity_eval]
  rw [mapRows_repeatData (K.log 1) 4 args.prod [0, 0, 0, 1] (by norm_num) rfl, hlog]
  rw [show ([0, 0, 0] : List ℚ) = List.replicate 3 0 from rfl]
  unfold repeatData
  rw [flatten_replicate_zero]

lemma se3_identity_zero (K : Kernels) (args : List Nat)
    (hlog : K.log 3 [0, 0, 0, 0, 0, 0, 1] = [0, 0, 0, 0, 0, 0]) :
    se3Type.identity K args =
      .ok ⟨args ++ [6], List.replicate (args.prod * 6) 0, false, .se3_type⟩ := by
  rw [se3_identity_eval]
  rw [mapRows_repeatData (K.log 3) 7 args.prod [0, 0, 0, 0, 0, 0, 1] (by norm_num) rfl,
    hlog]
  rw [show ([0, 0, 0, 0, 0, 0] : List ℚ) = List.replicate 6 0 from rfl]
  unfold repeatData
  rw [flatten_replicate_zero]

lemma so3_randn_sigma_zero (sample : List ℚ) (args : List Nat) :
    so3Type.randn sample 0 false args =
      .ok ⟨args ++ [3], List.replicate sample.length 0, false, .so3_type⟩ := by
  unfold so3Type.randn GroupType.randnBase LieGroup.make
  simp [map_zero_mul, List.getLast?_concat, GType.dimension, GType.manifold, Except.map]

lemma se3_randn_sigma_zero (sample : List ℚ) (args : List Nat) :
    se3Type.randn sample 0 false args =
      .ok ⟨args ++ [6], List.replicate sample.length 0, false, .se3_type⟩ := by
  unfold se3Type.randn GroupType.randnBase LieGroup.make
  simp [map_zero_mul, List.getLast?_concat, GType.dimension, GType.manifold, Except.map]

lemma SO3_randn_sigma_zero (K : Kernels) (sample : List ℚ) (args : List Nat)
    (hlen : sample.length = args.prod * 3)
    (hexp : K.exp 1 [0, 0, 0] = [0, 0, 0, 1]) :
    SO3Type.randn K sample 0 false args =
      .ok ⟨args ++ [4], repeatData args.prod [0, 0, 0, 1], false, .SO3_type⟩ := by
  unfold SO3Type.randn
  rw [so3_randn_sigma_zero, except_bind_ok, so3Type_Exp_eval, except_bind_ok]
  have hdata : mapRows (K.exp 1) 3 (List.replicate (args.prod * 3) (0 : ℚ)) =
      repeatData args.prod [0, 0, 0, 1] := by
    rw [← flatten_replicate_zero args.prod 3]
    rw [show (List.replicate args.prod (List.replicate 3 (0 : ℚ))).flatten =
        repeatData args.prod (List.replicate 3 0) from rfl]
    rw [mapRows_repeatData (K.exp 1) 3 args.prod (List.replicate 3 0) (by norm_num)
      (by simp)]
    rw [show K.exp 1 (List.replicate 3 0) = K.exp 1 [0, 0, 0] from rfl, hexp]
  rw [hlen, hdata]
  unfold LieGroup.make
  simp [List.dropLast_concat, List.getLast?_concat, GType.dimension, Except.map]

lemma SE3_randn_sigma_zero (K : Kernels) (sample : List ℚ) (args : List Nat)
    (hlen : sample.length = args.prod * 6)
    (hexp : K.exp 3 [0, 0, 0, 0, 0, 0] = [0, 0, 0, 0, 0, 0, 1]) :
    SE3Type.randn K sample 0 false args =
      .ok ⟨args ++ [7], repeatData args.prod [0, 0, 0, 0, 0, 0, 1], false,
        .SE3_type⟩ := by
  unfold SE3Type.randn
  rw [se3_randn_sigma_zero, except_bind_ok, se3Type_Exp_eval, except_bind_ok]
  have hdata : mapRows (K.exp 3) 6 (List.replicate (args.prod * 6) (0 : ℚ)) =
      repeatData args.prod [0, 0, 0, 0, 0, 0, 1] := by
    rw [← flatten_replicate_zero args.prod 6]
    rw [show (List.replicate args.prod (List.replicate 6 (0 : ℚ))).flatten =
        repeatData args.prod (List.replicate 6 0) from rfl]
    rw [mapRows_repeatData (K.exp 3) 6 args.prod (List.replicate 6 0) (by norm_num)
      (by simp)]
    rw [show K.exp 3 (List.replicate 6 0) = K.exp 3 [0, 0, 0, 0, 0, 0] from rfl, hexp]
  rw [hlen, hdata]
  unfold LieGroup.make
  simp [List.dropLast_concat, List.getLast?_concat, GType.dimension, Except.map]

/-- C2: on_manifold is dimension == manifold and holds exactly for the
tangent types so3 and se3; the four live GroupType instances declare
SO3 (dim 4, embedding 4, manifold 3), so3 (dim 3, embedding 4,
manifold 3), SE3 (dim 7, embedding 7, manifold 6), se3 (dim 6,
embedding 7, manifold 6); the group identifier is shared inside each
family and differs between the SO3 family and the SE3 family. -/
theorem C2_group_type_invariants :
    (∀ t : GType, t.on_manifold = (t.dimension == t.manifold)) ∧
    GType.so3_type.on_manifold = true ∧
    GType.se3_type.on_manifold = true ∧
    GType.SO3_type.on_manifold = false ∧
    GType.SE3_type.on_manifold = false ∧
    (GType.SO3_type.dimension = 4 ∧ GType.SO3_type.embedding = 4 ∧
      GType.SO3_type.manifold = 3) ∧
    (GType.so3_type.dimension = 3 ∧ GType.so3_type.embedding = 4 ∧
      GType.so3_type.manifold = 3) ∧
    (GType.SE3_type.dimension = 7 ∧ GType.SE3_type.embedding = 7 ∧
      GType.SE3_type.manifold = 6) ∧
    (GType.se3_type.dimension = 6 ∧ GType.se3_type.embedding = 7 ∧
      GType.se3_type.manifold = 6) ∧
    (∀ t : GType, t.on_manifold = false → t.dimension = t.embedding) ∧
    GType.SO3_type.group = GType.so3_type.group ∧
    GType.SE3_type.group = GType.se3_type.group ∧
    GType.SO3_type.group ≠ GType.SE3_type.group := by
  decide

/-- C3: for every input element, Exp on the embedding types SO3_type and
SE3_type raises AttributeError, and Log on the tangent types so3_type
and se3_type raises AttributeError, whatever the kernels compute: no
call is coerced to a no-op or to any other value. -/
theorem C3_exp_log_wrong_representation_raise (K : Kernels) (x : LieGroup) :
    GType.Exp K .SO3_type x =
      .error (.attributeError "Embedding Type has no Exp attribute") ∧
    GType.Exp K .SE3_type x =
      .error (.attributeError "Embedding Type has no Exp attribute") ∧
    GType.Log K .so3_type x =
      .error (.attributeError "Manifold Type has no Log attribute") ∧
    GType.Log K .se3_type x =
      .error (.attributeError "Manifold Type has no Log attribute") :=
  ⟨rfl, rfl, rfl, rfl⟩

/-- C1: group multiplication with the identity never returns the input
element: SO3Type.identity() builds the unit-quaternion element, but every
call of the container method Mul, in particular on that element, raises
AttributeError because self.apply_op does not resolve, so
Mul(g, identity()) == g fails on the code. -/
theorem C1_mul_with_identity_raises :
    SO3Type.identity [] = .ok ⟨[4], [0, 0, 0, 1], false, .SO3_type⟩ ∧
    LieGroup.Mul ⟨[4], [0, 0, 0, 1], false, .SO3_type⟩
        ⟨[4], [0, 0, 0, 1], false, .SO3_type⟩ =
      .error (.attributeError "apply_op") ∧
    raises (LieGroup.Mul ⟨[4], [0, 0, 0, 1], false, .SO3_type⟩
        ⟨[4], [0, 0, 0, 1], false, .SO3_type⟩) = true :=
  ⟨rfl, rfl, rfl⟩

/-- C6: constructing a LieGroup from a raw tensor whose trailing axis
differs from the declared dimension of the gtype tag raises
AssertionError before any element exists, and construction with the
matching trailing axis returns the wrapped element. -/
theorem C6_construction_checks_trailing_axis
    (shape : List Nat) (d : Nat) (data : List ℚ) (rg : Bool) (g : GType)
    (rk : Option Bool) (hlast : shape.getLast? = some d) :
    (d ≠ g.dimension →
      LieGroup.make ⟨shape, data, rg⟩ (some g) rk =
        .error (.assertionError "Dimension Invalid.")) ∧
    (d = g.dimension →
      LieGroup.make ⟨shape, data, rg⟩ (some g) rk = .ok ⟨shape, data, rg, g⟩) := by
  constructor
  · intro hne
    unfold LieGroup.make
    simp only [hlast]
    rw [if_neg hne]
  · intro he
    unfold LieGroup.make
    simp only [hlast]
    rw [if_pos he]

/-- Witness for C6 at concrete inputs: a 5-vector tagged SO3 fails the
construction assert, and a 4-vector tagged SO3 constructs. -/
theorem C6_construction_checks_trailing_axis_witness :
    LieGroup.make ⟨[5], [0, 0, 0, 0, 0], false⟩ (some .SO3_type) none =
      .error (.assertionError "Dimension Invalid.") ∧
    LieGroup.make ⟨[4], [0, 0, 0, 1], true⟩ (some .SO3_type) none =
      .ok ⟨[4], [0, 0, 0, 1], true, .SO3_type⟩ :=
  ⟨(C6_construction_checks_trailing_axis [5] 5 [0, 0, 0, 0, 0] false .SO3_type
      none rfl).1 (by decide),
   (C6_construction_checks_trailing_axis [4] 4 [0, 0, 0, 1] true .SO3_type
      none rfl).2 rfl⟩

/-- C10: calling Act with a point tensor whose trailing axis is neither 3
nor 4 silently returns None: no branch of the method matches, no helper
is dereferenced, and no exception is raised. -/
theorem C10_act_other_trailing_returns_none
    (self : LieGroup) (p : Tensor) (d : Nat)
    (hlast : p.shape.getLast? = some d) (h3 : d ≠ 3) (h4 : d ≠ 4) :
    LieGroup.Act self p = .ok none := by
  unfold LieGroup.Act
  simp only [hlast]
  rw [if_neg h3, if_neg h4]

/-- Witness for C10 at a concrete input: a 5-component point is acted on
by the unit-quaternion element and the call returns None. -/
theorem C10_act_other_trailing_returns_none_witness :
    LieGroup.Act ⟨[4], [0, 0, 0, 1], false, .SO3_type⟩
      ⟨[5], [0, 0, 0, 0, 0], false⟩ = .ok none :=
  C10_act_other_trailing_returns_none ⟨[4], [0, 0, 0, 1], false, .SO3_type⟩
    ⟨[5], [0, 0, 0, 0, 0], false⟩ 5 rfl (by decide) (by decide)

/-- C4: on a tangent-tagged element (so3 or se3, where on_manifold holds)
with a well-shaped trailing axis, Inv returns the coordinate-wise
negation carrying the same gtype tag, batch shape and requires_grad
flag, the result does not depend on the kernels (no kernel is invoked),
and applying Inv twice gives back the element exactly. -/
theorem C4_tangent_inverse_is_negation (K K2 : Kernels) (x : LieGroup)
    (htan : x.gtype.on_manifold = true)
    (hwf : x.shape.getLast? = some x.gtype.dimension) :
    GType.Inv K x.gtype x =
      .ok ⟨x.shape, x.data.map (fun v => -v), x.requires_grad, x.gtype⟩ ∧
    GType.Inv K x.gtype x = GType.Inv K2 x.gtype x ∧
    (GType.Inv K x.gtype x).bind (fun y => GType.Inv K y.gtype y) = .ok x := by
  have h1 : ∀ Ka : Kernels, GType.Inv Ka x.gtype x =
      .ok ⟨x.shape, x.data.map (fun v => -v), x.requires_grad, x.gtype⟩ := by
    intro Ka
    unfold GType.Inv LieGroup.make
    simp [htan, hwf]
  refine ⟨h1 K, (h1 K).trans (h1 K2).symm, ?_⟩
  rw [h1 K, except_bind_ok]
  unfold GType.Inv LieGroup.make
  simp [htan, hwf, map_neg_neg]

/-- Witness for C4 at a concrete tangent element tagged so3. -/
theorem C4_tangent_inverse_is_negation_witness :
    GType.Inv Ktriv .so3_type ⟨[3], [1, 2, 3], true, .so3_type⟩ =
      .ok ⟨[3], [-1, -2, -3], true, .so3_type⟩ ∧
    (GType.Inv Ktriv .so3_type ⟨[3], [1, 2, 3], true, .so3_type⟩).bind
        (fun y => GType.Inv Ktriv y.gtype y) =
      .ok ⟨[3], [1, 2, 3], true, .so3_type⟩ := by
  have h := C4_tangent_inverse_is_negation Ktriv Kid
    ⟨[3], [1, 2, 3], true, .so3_type⟩ rfl rfl
  exact ⟨h.1, h.2.2⟩

/-- C5: SO3Type.identity produces the unit quaternion [0,0,0,1] and
SE3Type.identity produces [0,0,0,0,0,0,1], expanded over the requested
batch shape; the tangent identities are exactly Log of the corresponding
manifold identity (compositional, not hard-coded), and when the log
kernel maps those manifold identities to zero they yield the zero
tangent vector of the right shape and tag. -/
theorem C5_identity_construction (args : List Nat) (K : Kernels) :
    SO3Type.identity args =
      .ok ⟨args ++ [4], repeatData args.prod [0, 0, 0, 1], false, .SO3_type⟩ ∧
    SE3Type.identity args =
      .ok ⟨args ++ [7], repeatData args.prod [0, 0, 0, 0, 0, 0, 1], false,
        .SE3_type⟩ ∧
    so3Type.identity K args = (SO3Type.identity args).bind (SO3Type.Log K) ∧
    se3Type.identity K args = (SE3Type.identity args).bind (SE3Type.Log K) ∧
    (K.log 1 [0, 0, 0, 1] = [0, 0, 0] →
      so3Type.identity K args =
        .ok ⟨args ++ [3], List.replicate (args.prod * 3) 0, false, .so3_type⟩) ∧
    (K.log 3 [0, 0, 0, 0, 0, 0, 1] = [0, 0, 0, 0, 0, 0] →
      se3Type.identity K args =
        .ok ⟨args ++ [6], List.replicate (args.prod * 6) 0, false, .se3_type⟩) :=
  ⟨SO3_identity_ok args, SE3_identity_ok args, rfl, rfl,
   so3_identity_zero K args, se3_identity_zero K args⟩

/-- Witness for C5 with the spec-pinned kernels at batch shape (2,). -/
theorem C5_identity_construction_witness :
    so3Type.identity Kid [2] =
      .ok ⟨[2, 3], List.replicate 6 0, false, .so3_type⟩ ∧
    se3Type.identity Kid [2] =
      .ok ⟨[2, 6], List.replicate 12 0, false, .se3_type⟩ :=
  ⟨(C5_identity_construction [2] Kid).2.2.2.2.1 rfl,
   (C5_identity_construction [2] Kid).2.2.2.2.2 rfl⟩

/-- C7: with sigma = 0 and any random draw of the right size, randn
produces the identity element of each of the four group types at any
batch shape, given the spec-pinned kernel behaviour at zero (the zero
tangent vector exponentiates to the group identity and the log of the
identity is zero). -/
theorem C7_randn_sigma_zero_yields_identity (K : Kernels) (args : List Nat)
    (s3 s6 : List ℚ)
    (h3 : s3.length = args.prod * 3) (h6 : s6.length = args.prod * 6)
    (hexp1 : K.exp 1 [0, 0, 0] = [0, 0, 0, 1])
    (hexp3 : K.exp 3 [0, 0, 0, 0, 0, 0] = [0, 0, 0, 0, 0, 0, 1])
    (hlog1 : K.log 1 [0, 0, 0, 1] = [0, 0, 0])
    (hlog3 : K.log 3 [0, 0, 0, 0, 0, 0, 1] = [0, 0, 0, 0, 0, 0]) :
    GType.randn K .SO3_type s3 0 false args = GType.identity K .SO3_type args ∧
    GType.randn K .so3_type s3 0 false args = GType.identity K .so3_type args ∧
    GType.randn K .SE3_type s6 0 false args = GType.identity K .SE3_type args ∧
    GType.randn K .se3_type s6 0 false args = GType.identity K .se3_type args := by
  refine ⟨?_, ?_, ?_, ?_⟩
  · rw [show GType.randn K .SO3_type s3 0 false args =
        SO3Type.randn K s3 0 false args from rfl,
      show GType.identity K .SO3_type args = SO3Type.identity args from rfl,
      SO3_randn_sigma_zero K s3 args h3 hexp1, SO3_identity_ok]
  · rw [show GType.randn K .so3_type s3 0 false args =
        so3Type.randn s3 0 false args from rfl,
      show GType.identity K .so3_type args = so3Type.identity K args from rfl,
      so3_randn_sigma_zero, so3_identity_zero K args hlog1, h3]
  · rw [show GType.randn K .SE3_type s6 0 false args =
        SE3Type.randn K s6 0 false args from rfl,
      show GType.identity K .SE3_type args = SE3Type.identity args from rfl,
      SE3_randn_sigma_zero K s6 args h6 hexp3, SE3_identity_ok]
  · rw [show GType.randn K .se3_type s6 0 false args =
        se3Type.randn s6 0 false args from rfl,
      show GType.identity K .se3_type args = se3Type.identity K args from rfl,
      se3_randn_sigma_zero, se3_identity_zero K args hlog3, h6]

/-- Witness for C7 with the spec-pinned kernels, batch shape (2,) and a
nonzero draw. -/
theorem C7_randn_sigma_zero_yields_identity_witness :
    GType.randn Kid .SO3_type (List.replicate 6 1) 0 false [2] =
      GType.identity Kid .SO3_type [2] ∧
    GType.randn Kid .so3_type (List.replicate 6 1) 0 false [2] =
      GType.identity Kid .so3_type [2] ∧
    GType.randn Kid .SE3_type (List.replicate 12 1) 0 false [2] =
      GType.identity Kid .SE3_type [2] ∧
    GType.randn Kid .se3_type (List.replicate 12 1) 0 false [2] =
      GType.identity Kid .se3_type [2] :=
  C7_randn_sigma_zero_yields_identity Kid [2] (List.replicate 6 1)
    (List.replicate 12 1) rfl rfl rfl rfl rfl rfl

lemma make_ok_requires_grad {data : Tensor} {gt : Option GType} {rk : Option Bool}
    {g : LieGroup} (h : LieGroup.make data gt rk = .ok g) :
    g.requires_grad = data.requires_grad := by
  unfold LieGroup.make at h
  split at h
  · exact absurd h (by simp)
  · split at h
    · exact absurd h (by simp)
    · split at h
      · injection h with h2
        rw [← h2]
      · exact absurd h (by simp)

/-- C8: whenever an operation returns an element, the gradient-tracking
flag of the result is the OR of the flags of its operands: the unary
operations Log, Exp and Inv propagate the flag of their single operand
(all other container operations raise and return nothing, so the claim
is vacuous for them), and the nullary identity factories return elements
with the flag false. -/
theorem C8_requires_grad_propagation (K : Kernels) (x : LieGroup)
    (t : GType) (args : List Nat) :
    (∀ g, LieGroup.Log K x = .ok g → g.requires_grad = x.requires_grad) ∧
    (∀ g, LieGroup.Exp K x = .ok g → g.requires_grad = x.requires_grad) ∧
    (∀ g, LieGroup.Inv K x = .ok g → g.requires_grad = x.requires_grad) ∧
    (∀ g, GType.identity K t args = .ok g → g.requires_grad = false) := by
  refine ⟨?_, ?_, ?_, ?_⟩
  · intro g h
    unfold LieGroup.Log at h
    cases hg : x.gtype with
    | SO3_type =>
      rw [hg, show GType.Log K .SO3_type x = SO3Type.Log K x from rfl,
        SO3Type_Log_eval] at h
      injection h with h2
      rw [← h2]
    | SE3_type =>
      rw [hg, show GType.Log K .SE3_type x = SE3Type.Log K x from rfl,
        SE3Type_Log_eval] at h
      injection h with h2
      rw [← h2]
    | so3_type =>
      rw [hg] at h
      exact absurd h (by simp [GType.Log, GType.on_manifold, GType.dimension,
        GType.manifold])
    | se3_type =>
      rw [hg] at h
      exact absurd h (by simp [GType.Log, GType.on_manifold, GType.dimension,
        GType.manifold])
  · intro g h
    unfold LieGroup.Exp at h
    cases hg : x.gtype with
    | so3_type =>
      rw [hg, show GType.Exp K .so3_type x = so3Type.Exp K x from rfl,
        so3Type_Exp_eval] at h
      injection h with h2
      rw [← h2]
    | se3_type =>
      rw [hg, show GType.Exp K .se3_type x = se3Type.Exp K x from rfl,
        se3Type_Exp_eval] at h
      injection h with h2
      rw [← h2]
    | SO3_type =>
      rw [hg] at h
      exact absurd h (by simp [GType.Exp, GType.on_manifold, GType.dimension,
        GType.manifold])
    | SE3_type =>
      rw [hg] at h
      exact absurd h (by simp [GType.Exp, GType.on_manifold, GType.dimension,
        GType.manifold])
  · intro g h
    unfold LieGroup.Inv at h
    cases hg : x.gtype with
    | so3_type =>
      rw [hg, show GType.Inv K .so3_type x =
        LieGroup.make ⟨x.shape, x.data.map (fun v => -v), x.requires_grad⟩
          (some x.gtype) (some x.requires_grad) from rfl] at h
      exact make_ok_requires_grad h
    | se3_type =>
      rw [hg, show GType.Inv K .se3_type x =
        LieGroup.make ⟨x.shape, x.data.map (fun v => -v), x.requires_grad⟩
          (some x.gtype) (some x.requires_grad) from rfl] at h
      exact make_ok_requires_grad h
    | SO3_type =>
      rw [hg, show GType.Inv K .SO3_type x =
        applyUnaryKernel K.inv 1 4 4 x.gtype x from rfl] at h
      unfold applyUnaryKernel at h
      exact make_ok_requires_grad h
    | SE3_type =>
      rw [hg, show GType.Inv K .SE3_type x =
        applyUnaryKernel K.inv 3 7 7 x.gtype x from rfl] at h
      unfold applyUnaryKernel at h
      exact make_ok_requires_grad h
  · intro g h
    cases t with
    | SO3_type =>
      rw [show GType.identity K .SO3_type args = SO3Type.identity args from rfl,
        SO3_identity_ok] at h
      injection h with h2
      rw [← h2]
    | SE3_type =>
      rw [show GType.identity K .SE3_type args = SE3Type.identity args from rfl,
        SE3_identity_ok] at h
      injection h with h2
      rw [← h2]
    | so3_type =>
      rw [show GType.identity K .so3_type args = so3Type.identity K args from rfl,
        so3_identity_eval] at h
      injection h with h2
      rw [← h2]
    | se3_type =>
      rw [show GType.identity K .se3_type args = se3Type.identity K args from rfl,
        se3_identity_eval] at h
      injection h with h2
      rw [← h2]

/-- Witness for C8: Log of a grad-requiring SO3 element keeps the flag. -/
theorem C8_requires_grad_propagation_witness :
    LieGroup.Log Kid ⟨[4], [0, 0, 0, 1], true, .SO3_type⟩ =
      .ok ⟨[3], [0, 0, 0], true, .so3_type⟩ ∧
    (⟨[3], [0, 0, 0], true, .so3_type⟩ : LieGroup).requires_grad = true :=
  ⟨rfl, (C8_requires_grad_propagation Kid ⟨[4], [0, 0, 0, 1], true, .SO3_type⟩
    .SO3_type []).1 ⟨[3], [0, 0, 0], true, .so3_type⟩ rfl⟩

/-- C9: each of the container methods Mul, Retr, Adj, AdjT, Jinv, Act
(on a 3- or 4-component point), matrix and translation raises on every
invocation and never returns a value, because each body dereferences a
name that does not resolve in the module (apply_op, the capitalized
kernel aliases, or act; for matrix the intermediate construction with
the default gtype=None already raises first). -/
theorem C9_container_methods_always_raise (self other : LieGroup) (a p : Tensor) :
    raises (LieGroup.Mul self other) = true ∧
    raises (LieGroup.Retr self a) = true ∧
    raises (LieGroup.Adj self a) = true ∧
    raises (LieGroup.AdjT self a) = true ∧
    raises (LieGroup.Jinv self a) = true ∧
    (p.shape.getLast? = some 3 → raises (LieGroup.Act self p) = true) ∧
    (p.shape.getLast? = some 4 → raises (LieGroup.Act self p) = true) ∧
    raises (LieGroup.matrix self) = true ∧
    raises (LieGroup.translation self) = true := by
  refine ⟨rfl, rfl, rfl, rfl, rfl, ?_, ?_, ?_, rfl⟩
  · intro h3
    unfold LieGroup.Act
    rw [h3]
    rfl
  · intro h4
    unfold LieGroup.Act
    rw [h4]
    rfl
  · unfold LieGroup.matrix
    split
    · rfl
    · exact raises_bind _ _ (make_gtype_none_raises _ _)

/-- Witness for C9: the kernel-backed methods raise on concrete inputs,
including Act on 3- and 4-component points. -/
theorem C9_container_methods_always_raise_witness :
    raises (LieGroup.Mul ⟨[4], [0, 0, 0, 2], false, .SO3_type⟩
      ⟨[4], [0, 0, 0, 1], false, .SO3_type⟩) = true ∧
    raises (LieGroup.Act ⟨[4], [0, 0, 0, 2], false, .SO3_type⟩
      ⟨[3], [1, 2, 3], false⟩) = true ∧
    raises (LieGroup.Act ⟨[4], [0, 0, 0, 2], false, .SO3_type⟩
      ⟨[4], [1, 2, 3, 1], false⟩) = true := by
  have h3 := C9_container_methods_always_raise
    ⟨[4], [0, 0, 0, 2], false, .SO3_type⟩ ⟨[4], [0, 0, 0, 1], false, .SO3_type⟩
    ⟨[3], [1, 2, 3], false⟩ ⟨[3], [1, 2, 3], false⟩
  have h4 := C9_container_methods_always_raise
    ⟨[4], [0, 0, 0, 2], false, .SO3_type⟩ ⟨[4], [0, 0, 0, 1], false, .SO3_type⟩
    ⟨[3], [1, 2, 3], false⟩ ⟨[4], [1, 2, 3, 1], false⟩
  exact ⟨h3.1, h3.2.2.2.2.2.1 rfl, h4.2.2.2.2.2.2.1 rfl⟩

end PyPose
